import Mathlib

/-!
Verification of the rational energy model of chemtools
(`chemtools/conceptual/rational.py`, class `RationalGlobalTool`).

The Python code works on a dictionary mapping electron counts to energies.
We embed it over exact rationals: a dictionary becomes a list of key-value
pairs (a real `dict` never has duplicate keys; every theorem below holds for
all lists, hence in particular for duplicate-free ones).  Python exceptions
become an explicit error type: `ValueError` carries an identifying message
tag, and float division by zero (which raises `ZeroDivisionError` in Python)
becomes an explicit `zeroDivisionError` branch guarded by a zero test on the
denominator.  The non-fatal `log.warn` call becomes a Boolean `warned` flag
carried in the result.
-/

namespace ChemTools

/-- The identifying message of each `ValueError` raised in `rational.py`
(lines 59-61, 64-65, 67-68, 71-74, 92-93, 107-108, 112-113). -/
inductive ErrMsg where
  /-- "Rational model requires 3 energy values corresponding to positive
  number of electrons!" (raised when the sample count is not 3 or some
  electron count is negative). -/
  | requiresThreePositive
  /-- "Argument n0 cannot be less than one!" -/
  | n0LessThanOne
  /-- "Number of electrons should differ by one!" -/
  | notUnitSpaced
  /-- "For rational model, the energy values for consecutive number of
  electrons should be monotonic!" -/
  | notMonotonic
  /-- "Number of electrons cannot be negativ!" -/
  | negativeNElec
  /-- "Argument order should be an integer greater than or equal to 1." -/
  | badOrder
deriving DecidableEq

/-- A Python exception: `ValueError` with its message, or `ZeroDivisionError`
(raised by float division by zero). -/
inductive PyError where
  | valueError (msg : ErrMsg)
  | zeroDivisionError
deriving DecidableEq

/-- An electron-count argument: a finite rational or the float `inf`
sentinel (`float('inf')`, recognized by `np.isinf` in the code). -/
inductive NElec where
  | fin (q : ℚ)
  | inf
deriving DecidableEq

/-- The state of a constructed `RationalGlobalTool`: the fitted parameters
`a0`, `a1`, `b1` (stored as `self._params`), the reference electron count
`n0` (stored as `self._n0`) and the `n_max` sentinel (always `float('inf')`
for the rational model, line 82). -/
structure RationalGlobalTool where
  a0 : ℚ
  a1 : ℚ
  b1 : ℚ
  n0 : ℚ
  nMax : NElec
deriving DecidableEq

/-- Result of an evaluation call: the returned value together with the flag
telling whether the out-of-interpolation-range warning was emitted. -/
structure EvalOut where
  warned : Bool
  value : ℚ
deriving DecidableEq

/-- A dynamically typed Python argument, as passed for the `order` parameter
of `energy_derivative`.  `bool` is a subclass of `int` in Python, so
`isinstance(order, int)` is true for Booleans. -/
inductive PyObj where
  | pyInt (z : ℤ)
  | pyBool (b : Bool)
  | pyFloat (q : ℚ)
  | pyList (l : List ℤ)
deriving DecidableEq

deriving instance DecidableEq for Except

/-- `dict_energy.keys()`. -/
def dictKeys (d : List (ℚ × ℚ)) : List ℚ := d.map Prod.fst

/-- `sorted(dict_energy.keys())`. -/
def sortedKeys (d : List (ℚ × ℚ)) : List ℚ :=
  List.insertionSort (· ≤ ·) (dictKeys d)

/-- `sorted(dict_energy.keys())[1]` (line 63): the reference electron count. -/
def middleKey (d : List (ℚ × ℚ)) : ℚ := (sortedKeys d).getD 1 0

/-- `dict_energy[k]` (well-defined because a `dict` has unique keys; the
default is never reached on the paths where the lookup is used). -/
def lookupD (d : List (ℚ × ℚ)) (k : ℚ) : ℚ :=
  match d with
  | [] => 0
  | (a, b) :: rest => if a = k then b else lookupD rest k

/-- `energy_m = dict_energy[n0 - 1]` (line 70; the list comprehension reads
the values at the sorted keys, which the line-67 check forces to be
`[n0 - 1, n0, n0 + 1]`). -/
def energyM (d : List (ℚ × ℚ)) : ℚ := lookupD d (middleKey d - 1)

/-- `energy_0 = dict_energy[n0]` (line 70). -/
def energy0 (d : List (ℚ × ℚ)) : ℚ := lookupD d (middleKey d)

/-- `energy_p = dict_energy[n0 + 1]` (line 70). -/
def energyP (d : List (ℚ × ℚ)) : ℚ := lookupD d (middleKey d + 1)

/-- The divisor applied to `b1` on line 77:
`(n0 + 1) * energy_p - 2 * n0 * energy_0 + (n0 - 1) * energy_m`. -/
def b1den (d : List (ℚ × ℚ)) : ℚ :=
  (middleKey d + 1) * energyP d - 2 * middleKey d * energy0 d
    + (middleKey d - 1) * energyM d

/-- `b1` after lines 76-77 (meaningful only when `b1den d` is nonzero;
Python raises `ZeroDivisionError` otherwise). -/
def b1val (d : List (ℚ × ℚ)) : ℚ :=
  (-(energyP d - 2 * energy0 d + energyM d)) / b1den d

/-- `a1 = (1 + b1 * n0) * (energy_p - energy_0) + (b1 * energy_p)` (line 78). -/
def a1val (d : List (ℚ × ℚ)) : ℚ :=
  (1 + b1val d * middleKey d) * (energyP d - energy0 d) + b1val d * energyP d

/-- `a0 = - a1 * n0 + energy_0 * (1 + b1 * n0)` (line 79). -/
def a0val (d : List (ℚ × ℚ)) : ℚ :=
  -(a1val d) * middleKey d + energy0 d * (1 + b1val d * middleKey d)

/-- `RationalGlobalTool.__init__` (lines 57-83): the validation checks in
source order, then the closed-form parameters; the division on line 77
raises `ZeroDivisionError` when its divisor is zero. -/
def initRationalGlobalTool (d : List (ℚ × ℚ)) :
    Except PyError RationalGlobalTool :=
  if ¬ (d.length = 3 ∧ ∀ k ∈ dictKeys d, 0 ≤ k) then
    .error (.valueError .requiresThreePositive)
  else if middleKey d < 1 then
    .error (.valueError .n0LessThanOne)
  else if sortedKeys d ≠ [middleKey d - 1, middleKey d, middleKey d + 1] then
    .error (.valueError .notUnitSpaced)
  else if ¬ (energyM d > energy0 d ∧ energy0 d ≥ energyP d) then
    .error (.valueError .notMonotonic)
  else if b1den d = 0 then
    .error .zeroDivisionError
  else
    .ok { a0 := a0val d, a1 := a1val d, b1 := b1val d,
          n0 := middleKey d, nMax := .inf }

/-- The conjunction of the validation conditions checked by `__init__`
(sample count, non-negative counts, `n0 >= 1`, unit-spaced sorted triple,
monotonic energies). -/
def validInput (d : List (ℚ × ℚ)) : Prop :=
  d.length = 3 ∧ (∀ k ∈ dictKeys d, 0 ≤ k) ∧ 1 ≤ middleKey d ∧
    sortedKeys d = [middleKey d - 1, middleKey d, middleKey d + 1] ∧
    energyM d > energy0 d ∧ energy0 d ≥ energyP d

instance (d : List (ℚ × ℚ)) : Decidable (validInput d) := by
  unfold validInput; infer_instance

/-- `self._params` (line 80). -/
def RationalGlobalTool.params (m : RationalGlobalTool) : List ℚ :=
  [m.a0, m.a1, m.b1]

/-- `n_elec < 0.0` (lines 92, 107); false for `float('inf')`. -/
def nNeg : NElec → Bool
  | .fin q => decide (q < 0)
  | .inf => false

/-- `self._n0 - 1 <= n_elec <= self._n0 + 1` (lines 94, 109); false for
`float('inf')` since `inf <= n0 + 1` is false. -/
def inRange (m : RationalGlobalTool) : NElec → Bool
  | .fin q => decide (m.n0 - 1 ≤ q ∧ q ≤ m.n0 + 1)
  | .inf => false

/-- `isinstance(order, int) and order > 0` (line 112).  Python Booleans are
instances of `int` with `True == 1`, `False == 0`. -/
def isPosInt : PyObj → Bool
  | .pyInt z => decide (0 < z)
  | .pyBool b => b
  | .pyFloat _ => false
  | .pyList _ => false

/-- The integer value of a validated `order` argument. -/
def orderVal : PyObj → ℕ
  | .pyInt z => z.toNat
  | .pyBool b => if b then 1 else 0
  | .pyFloat _ => 0
  | .pyList _ => 0

/-- `RationalGlobalTool.energy` (lines 91-103).  The warning of lines 94-96
becomes the `warned` flag; the divisions on lines 100 and 102 raise
`ZeroDivisionError` when their float divisor is zero. -/
def energy (m : RationalGlobalTool) (n : NElec) : Except PyError EvalOut :=
  if nNeg n then .error (.valueError .negativeNElec)
  else
    let w := !(inRange m n)
    match n with
    | .inf =>
        if m.b1 = 0 then .error .zeroDivisionError
        else .ok ⟨w, m.a1 / m.b1⟩
    | .fin q =>
        if 1 + m.b1 * q = 0 then .error .zeroDivisionError
        else .ok ⟨w, (m.a0 + m.a1 * q) / (1 + m.b1 * q)⟩

/-- `RationalGlobalTool.energy_derivative` (lines 106-122): the `n_elec`
check, the warning, the `order` check, then the closed-form derivative; the
division on line 121 raises `ZeroDivisionError` at a pole of the model. -/
def energyDerivative (m : RationalGlobalTool) (n : NElec) (order : PyObj) :
    Except PyError EvalOut :=
  if nNeg n then .error (.valueError .negativeNElec)
  else
    let w := !(inRange m n)
    if ¬ isPosInt order then .error (.valueError .badOrder)
    else
      match n with
      | .inf => .ok ⟨w, 0⟩
      | .fin q =>
          let k := orderVal order
          if 1 + m.b1 * q = 0 then .error .zeroDivisionError
          else
            .ok ⟨w, (-m.b1) ^ (k - 1) * (m.a1 - m.a0 * m.b1)
                  * (Nat.factorial k : ℚ) / (1 + m.b1 * q) ^ (k + 1)⟩

/-- The closed-form `n`-th derivative value of the rational model (the value
computed on lines 119-121 of `rational.py`). -/
def derivFormula (m : RationalGlobalTool) (q : ℚ) (k : ℕ) : ℚ :=
  (-m.b1) ^ (k - 1) * (m.a1 - m.a0 * m.b1) * (Nat.factorial k : ℚ)
    / (1 + m.b1 * q) ^ (k + 1)

/-- Modelled from the spec: `grand_potential_derivative` is implemented in
`BaseGlobalTool` (`chemtools/conceptual/base.py`), which is not included
under `src/`.  Per the spec (section 4.2), order 1 returns `-N`, order 2
returns `-1/E''(N)`, and order 3 is `E'''(N)/E''(N)^3` (the composition used
by the analytical helper in `test_rational.py`); the derivatives of `E` are
the closed-form rational-model derivatives. -/
def grandPotentialDerivative (m : RationalGlobalTool) (n : ℚ) (order : ℕ) :
    Option ℚ :=
  if n < 0 then none
  else if order = 1 then some (-n)
  else if order = 2 then
    (if derivFormula m n 2 = 0 then none else some (-1 / derivFormula m n 2))
  else if order = 3 then
    (if derivFormula m n 2 = 0 then none
     else some (derivFormula m n 3 / (derivFormula m n 2) ^ 3))
  else none

/-- Modelled from the spec: `QuadraticGlobalTool` (`chemtools/tools`) is not
included under `src/`.  Per the spec and `test_local.py`, it is built from
the three energies `E(N0)`, `E(N0 + 1)`, `E(N0 - 1)` and exposes the scalar
descriptors used by the local tool. -/
structure QuadraticGlobalTool where
  eZero : ℚ
  ePlus : ℚ
  eMinus : ℚ
deriving DecidableEq

/-- `ip = E(N0 - 1) - E(N0)`. -/
def QuadraticGlobalTool.ip (g : QuadraticGlobalTool) : ℚ := g.eMinus - g.eZero

/-- `ea = E(N0) - E(N0 + 1)`. -/
def QuadraticGlobalTool.ea (g : QuadraticGlobalTool) : ℚ := g.eZero - g.ePlus

/-- Chemical hardness `eta = ip - ea` (per `test_local.py`). -/
def QuadraticGlobalTool.eta (g : QuadraticGlobalTool) : ℚ := g.ip - g.ea

/-- Global nucleofugality `(ip - 3 ea)^2 / (8 (ip - ea))` (per
`test_local.py`). -/
def QuadraticGlobalTool.nucleofugality (g : QuadraticGlobalTool) : ℚ :=
  (g.ip - 3 * g.ea) ^ 2 / (8 * (g.ip - g.ea))

/-- Modelled from the spec: `QuadraticLocalTool` (`chemtools/tools`) is not
included under `src/`.  It optionally owns the two Fukui-function arrays and
a global tool; every constructor argument defaults to absent (`None`). -/
structure QuadraticLocalTool where
  ff_plus : Option (List ℚ) := none
  ff_minus : Option (List ℚ) := none
  global_instance : Option QuadraticGlobalTool := none
deriving DecidableEq

/-- Modelled from the spec: `ff_zero = (ff_plus + ff_minus) / 2`, `None`
unless both Fukui arrays are present. -/
def QuadraticLocalTool.ff_zero (t : QuadraticLocalTool) : Option (List ℚ) :=
  match t.ff_plus, t.ff_minus with
  | some p, some m => some (List.zipWith (fun x y => (x + y) / 2) p m)
  | _, _ => none

/-- Modelled from the spec: `dual_descriptor = ff_plus - ff_minus`, `None`
unless both Fukui arrays are present. -/
def QuadraticLocalTool.dual_descriptor (t : QuadraticLocalTool) :
    Option (List ℚ) :=
  match t.ff_plus, t.ff_minus with
  | some p, some m => some (List.zipWith (fun x y => x - y) p m)
  | _, _ => none

/-- A global scalar times a per-point array, `None` if either input is
absent (the optional-computation pattern of the local tool). -/
def scaleOpt (s : Option ℚ) (a : Option (List ℚ)) : Option (List ℚ) :=
  match s, a with
  | some s, some a => some (a.map (fun x => s * x))
  | _, _ => none

/-- Modelled from the spec: `ip_plus = global.ip * ff_plus`. -/
def QuadraticLocalTool.ip_plus (t : QuadraticLocalTool) : Option (List ℚ) :=
  scaleOpt (t.global_instance.map QuadraticGlobalTool.ip) t.ff_plus

/-- Modelled from the spec: `ip_minus = global.ip * ff_minus`. -/
def QuadraticLocalTool.ip_minus (t : QuadraticLocalTool) : Option (List ℚ) :=
  scaleOpt (t.global_instance.map QuadraticGlobalTool.ip) t.ff_minus

/-- Modelled from the spec: `ip_zero = global.ip * ff_zero`. -/
def QuadraticLocalTool.ip_zero (t : QuadraticLocalTool) : Option (List ℚ) :=
  scaleOpt (t.global_instance.map QuadraticGlobalTool.ip) t.ff_zero

/-- Modelled from the spec: `eta_plus = global.eta * ff_plus`. -/
def QuadraticLocalTool.eta_plus (t : QuadraticLocalTool) : Option (List ℚ) :=
  scaleOpt (t.global_instance.map QuadraticGlobalTool.eta) t.ff_plus

/-- Modelled from the spec: `eta_minus = global.eta * ff_minus`. -/
def QuadraticLocalTool.eta_minus (t : QuadraticLocalTool) : Option (List ℚ) :=
  scaleOpt (t.global_instance.map QuadraticGlobalTool.eta) t.ff_minus

/-- Modelled from the spec: `eta_zero = global.eta * ff_zero`. -/
def QuadraticLocalTool.eta_zero (t : QuadraticLocalTool) : Option (List ℚ) :=
  scaleOpt (t.global_instance.map QuadraticGlobalTool.eta) t.ff_zero

/-- Modelled from the spec: `nucleofugality_plus`. -/
def QuadraticLocalTool.nucleofugality_plus (t : QuadraticLocalTool) :
    Option (List ℚ) :=
  scaleOpt (t.global_instance.map QuadraticGlobalTool.nucleofugality) t.ff_plus

/-- Modelled from the spec: `nucleofugality_minus`. -/
def QuadraticLocalTool.nucleofugality_minus (t : QuadraticLocalTool) :
    Option (List ℚ) :=
  scaleOpt (t.global_instance.map QuadraticGlobalTool.nucleofugality) t.ff_minus

/-- Modelled from the spec: `nucleofugality_zero`. -/
def QuadraticLocalTool.nucleofugality_zero (t : QuadraticLocalTool) :
    Option (List ℚ) :=
  scaleOpt (t.global_instance.map QuadraticGlobalTool.nucleofugality) t.ff_zero

/-- A concrete valid triple, `{1: 4, 2: 1, 3: -1}`; its fitted model is
`mEx` below with `E(N) = (9 - (11/3) N) / (1 + N/3)`. -/
def dEx : List (ℚ × ℚ) := [(1, 4), (2, 1), (3, -1)]

/-- The model fitted from `dEx`. -/
def mEx : RationalGlobalTool := ⟨9, -11/3, 1/3, 2, .inf⟩

/-- A triple passing validation whose `b1` divisor is zero:
`{0: 1, 1: 0, 2: 0}` gives `2*E+ - 2*E0 + 0*E- = 0`. -/
def dZero : List (ℚ × ℚ) := [(0, 1), (1, 0), (2, 0)]

/-- A triple passing validation with `E0 = E+` and `n0 = 2`; the fitted
model has `b1 = -1`, putting the pole of the rational function at
`n0 - 1 = 1`. -/
def dPoleM : List (ℚ × ℚ) := [(1, 5), (2, 0), (3, 0)]

/-- The model fitted from `dPoleM`. -/
def mPoleM : RationalGlobalTool := ⟨0, 0, -1, 2, .inf⟩

/-- A strictly monotonic triple `{0: 1, 1: 0, 2: -2}` whose fitted model
has `b1 = -1/4`, hence a pole at the nonnegative count `N = 4`. -/
def dPole : List (ℚ × ℚ) := [(0, 1), (1, 0), (2, -2)]

/-- The model fitted from `dPole`: `E(N) = (1 - N) / (1 - N/4)`. -/
def mPole : RationalGlobalTool := ⟨1, -1, -1/4, 1, .inf⟩

/-- A triple `{0: 1, 1: 0, 2: -1}` whose fitted model is linear
(`b1 = 0`), so `energy` at `N = +infinity` divides by zero. -/
def dLin : List (ℚ × ℚ) := [(0, 1), (1, 0), (2, -1)]

/-- The model fitted from `dLin`: `E(N) = 1 - N`. -/
def mLin : RationalGlobalTool := ⟨1, -1, 0, 1, .inf⟩

/-! ## Characterization of the constructor -/

theorem init_ok_of_valid (d : List (ℚ × ℚ)) (hv : validInput d)
    (hden : b1den d ≠ 0) :
    initRationalGlobalTool d =
      .ok ⟨a0val d, a1val d, b1val d, middleKey d, .inf⟩ := by
  obtain ⟨h1, h2, h3, h4, h5, h6⟩ := hv
  unfold initRationalGlobalTool
  rw [if_neg (not_not_intro ⟨h1, h2⟩), if_neg (not_lt.2 h3),
    if_neg (not_not_intro h4), if_neg (not_not_intro ⟨h5, h6⟩), if_neg hden]

theorem init_ok_inv (d : List (ℚ × ℚ)) (m : RationalGlobalTool)
    (h : initRationalGlobalTool d = .ok m) :
    validInput d ∧ b1den d ≠ 0 ∧
      m = ⟨a0val d, a1val d, b1val d, middleKey d, .inf⟩ := by
  unfold initRationalGlobalTool at h
  by_cases h1 : d.length = 3 ∧ ∀ k ∈ dictKeys d, 0 ≤ k
  · rw [if_neg (not_not_intro h1)] at h
    by_cases h2 : middleKey d < 1
    · rw [if_pos h2] at h; exact Except.noConfusion h
    · rw [if_neg h2] at h
      by_cases h3 : sortedKeys d = [middleKey d - 1, middleKey d, middleKey d + 1]
      · rw [if_neg (not_not_intro h3)] at h
        by_cases h4 : energyM d > energy0 d ∧ energy0 d ≥ energyP d
        · rw [if_neg (not_not_intro h4)] at h
          by_cases h5 : b1den d = 0
          · rw [if_pos h5] at h; exact Except.noConfusion h
          · rw [if_neg h5] at h
            exact ⟨⟨h1.1, h1.2, not_lt.1 h2, h3, h4.1, h4.2⟩, h5,
              (Except.ok.inj h).symm⟩
        · rw [if_pos h4] at h; exact Except.noConfusion h
      · rw [if_pos h3] at h; exact Except.noConfusion h
  · rw [if_pos h1] at h; exact Except.noConfusion h

/-! ## Algebraic facts about the fitted parameters -/

theorem one_add_b1_n0_eq (d : List (ℚ × ℚ)) (hden : b1den d ≠ 0) :
    1 + b1val d * middleKey d = (energyP d - energyM d) / b1den d := by
  unfold b1val
  field_simp
  unfold b1den
  ring

theorem one_add_b1_p_eq (d : List (ℚ × ℚ)) (hden : b1den d ≠ 0) :
    1 + b1val d * (middleKey d + 1) =
      2 * (energy0 d - energyM d) / b1den d := by
  unfold b1val
  field_simp
  unfold b1den
  ring

theorem one_add_b1_m_eq (d : List (ℚ × ℚ)) (hden : b1den d ≠ 0) :
    1 + b1val d * (middleKey d - 1) =
      2 * (energyP d - energy0 d) / b1den d := by
  unfold b1val
  field_simp
  unfold b1den
  ring

theorem one_add_b1_n0_ne (d : List (ℚ × ℚ)) (hden : b1den d ≠ 0)
    (hme : energyM d > energy0 d) (h0p : energy0 d ≥ energyP d) :
    1 + b1val d * middleKey d ≠ 0 := by
  rw [one_add_b1_n0_eq d hden]
  exact div_ne_zero (sub_ne_zero.2 (by linarith)) hden

theorem one_add_b1_p_ne (d : List (ℚ × ℚ)) (hden : b1den d ≠ 0)
    (hme : energyM d > energy0 d) :
    1 + b1val d * (middleKey d + 1) ≠ 0 := by
  rw [one_add_b1_p_eq d hden]
  exact div_ne_zero (by intro hc; nlinarith) hden

theorem one_add_b1_m_ne (d : List (ℚ × ℚ)) (hden : b1den d ≠ 0)
    (hne : energy0 d ≠ energyP d) :
    1 + b1val d * (middleKey d - 1) ≠ 0 := by
  rw [one_add_b1_m_eq d hden]
  refine div_ne_zero ?_ hden
  intro hc
  exact hne (by linarith)

theorem ep_ne_e0_of_pole_free (d : List (ℚ × ℚ)) (hden : b1den d ≠ 0)
    (hpol : middleKey d = 1 ∨ energy0 d ≠ energyP d) :
    energy0 d ≠ energyP d := by
  rcases hpol with h1 | h
  · intro heq
    apply hden
    unfold b1den
    rw [h1, heq]
    ring
  · exact h

theorem repro_at_n0 (d : List (ℚ × ℚ))
    (h : 1 + b1val d * middleKey d ≠ 0) :
    (a0val d + a1val d * middleKey d) / (1 + b1val d * middleKey d) =
      energy0 d := by
  rw [div_eq_iff h]
  unfold a0val
  ring

theorem repro_at_p (d : List (ℚ × ℚ))
    (h : 1 + b1val d * (middleKey d + 1) ≠ 0) :
    (a0val d + a1val d * (middleKey d + 1)) /
        (1 + b1val d * (middleKey d + 1)) = energyP d := by
  rw [div_eq_iff h]
  unfold a0val a1val
  ring

theorem repro_at_m (d : List (ℚ × ℚ)) (hden : b1den d ≠ 0)
    (h : 1 + b1val d * (middleKey d - 1) ≠ 0) :
    (a0val d + a1val d * (middleKey d - 1)) /
        (1 + b1val d * (middleKey d - 1)) = energyM d := by
  rw [div_eq_iff h]
  unfold a0val a1val b1val
  field_simp
  unfold b1den
  ring

/-! ## Evaluation lemmas -/

theorem energy_fin_eq (m : RationalGlobalTool) (q : ℚ) (h0 : 0 ≤ q)
    (hd : 1 + m.b1 * q ≠ 0) :
    energy m (.fin q) =
      .ok ⟨!(inRange m (.fin q)), (m.a0 + m.a1 * q) / (1 + m.b1 * q)⟩ := by
  unfold energy nNeg
  rw [if_neg (by simp [not_lt.2 h0])]
  dsimp only
  rw [if_neg hd]

/-! ## Claim theorems -/

/-- Claim C1 (amended): for every energy triple that passes validation, whose
closed-form divisor `(n0+1)*E+ - 2*n0*E0 + (n0-1)*E-` is nonzero (otherwise
the construction itself divides by zero), and with `n0 = 1` or `E0 ≠ E+`
(otherwise the fitted rational function has its pole at `n0 - 1`),
constructing `RationalGlobalTool` succeeds and the fitted model's energy
method reproduces the three input energies at `n0 - 1`, `n0` and `n0 + 1`
exactly. -/
theorem rational_fit_roundtrip (d : List (ℚ × ℚ)) (hv : validInput d)
    (hden : b1den d ≠ 0)
    (hpol : middleKey d = 1 ∨ energy0 d ≠ energyP d) :
    ∃ m, initRationalGlobalTool d = .ok m ∧
      energy m (.fin (middleKey d - 1)) = .ok ⟨false, energyM d⟩ ∧
      energy m (.fin (middleKey d)) = .ok ⟨false, energy0 d⟩ ∧
      energy m (.fin (middleKey d + 1)) = .ok ⟨false, energyP d⟩ := by
  have h3 : 1 ≤ middleKey d := hv.2.2.1
  have h5 : energyM d > energy0 d := hv.2.2.2.2.1
  have h6 : energy0 d ≥ energyP d := hv.2.2.2.2.2
  have hne : energy0 d ≠ energyP d := ep_ne_e0_of_pole_free d hden hpol
  refine ⟨_, init_ok_of_valid d hv hden, ?_, ?_, ?_⟩
  · have hd := one_add_b1_m_ne d hden hne
    rw [energy_fin_eq _ _ (by linarith) hd]
    have hw : inRange ⟨a0val d, a1val d, b1val d, middleKey d, .inf⟩
        (.fin (middleKey d - 1)) = true := by
      unfold inRange
      exact decide_eq_true ⟨by linarith, by linarith⟩
    rw [hw]
    dsimp only
    rw [repro_at_m d hden hd]
    rfl
  · have hd := one_add_b1_n0_ne d hden h5 h6
    rw [energy_fin_eq _ _ (by linarith) hd]
    have hw : inRange ⟨a0val d, a1val d, b1val d, middleKey d, .inf⟩
        (.fin (middleKey d)) = true := by
      unfold inRange
      exact decide_eq_true ⟨by linarith, by linarith⟩
    rw [hw]
    dsimp only
    rw [repro_at_n0 d hd]
    rfl
  · have hd := one_add_b1_p_ne d hden h5
    rw [energy_fin_eq _ _ (by linarith) hd]
    have hw : inRange ⟨a0val d, a1val d, b1val d, middleKey d, .inf⟩
        (.fin (middleKey d + 1)) = true := by
      unfold inRange
      exact decide_eq_true ⟨by linarith, by linarith⟩
    rw [hw]
    dsimp only
    rw [repro_at_p d hd]
    rfl

/-- Claim C2: whenever construction succeeds, the fitted parameters stored in
`params` equal the closed-form substitution solution
`b1 = -(E+ - 2*E0 + E-)/((n0+1)*E+ - 2*n0*E0 + (n0-1)*E-)`,
`a1 = (1 + b1*n0)*(E+ - E0) + b1*E+`, `a0 = -a1*n0 + E0*(1 + b1*n0)`,
where `E-`, `E0`, `E+` are the energies at `n0-1`, `n0`, `n0+1`. -/
theorem rational_params_closed_form (d : List (ℚ × ℚ))
    (m : RationalGlobalTool) (h : initRationalGlobalTool d = .ok m) :
    m.b1 = -(energyP d - 2 * energy0 d + energyM d) /
        ((middleKey d + 1) * energyP d - 2 * middleKey d * energy0 d
          + (middleKey d - 1) * energyM d) ∧
    m.a1 = (1 + m.b1 * middleKey d) * (energyP d - energy0 d)
        + m.b1 * energyP d ∧
    m.a0 = -(m.a1) * middleKey d + energy0 d * (1 + m.b1 * middleKey d) ∧
    m.params = [m.a0, m.a1, m.b1] := by
  obtain ⟨-, -, hm⟩ := init_ok_inv d m h
  subst hm
  refine ⟨?_, ?_, ?_, rfl⟩
  · unfold b1val b1den
    rfl
  · unfold a1val
    rfl
  · unfold a0val
    rfl

/-- Claim C3: construction returns a `ValueError` (and no model) whenever the
input violates any of the validation conditions (exactly 3 samples, counts
nonnegative, sorted counts a unit-spaced triple around `n0 >= 1`, monotonic
energies); the error carries the message identifying the failed check. -/
theorem rational_invalid_input_valueError (d : List (ℚ × ℚ))
    (h : ¬ validInput d) :
    ∃ msg, initRationalGlobalTool d = .error (.valueError msg) := by
  unfold initRationalGlobalTool
  by_cases h1 : d.length = 3 ∧ ∀ k ∈ dictKeys d, 0 ≤ k
  · rw [if_neg (not_not_intro h1)]
    by_cases h2 : middleKey d < 1
    · rw [if_pos h2]; exact ⟨_, rfl⟩
    · rw [if_neg h2]
      by_cases h3 : sortedKeys d = [middleKey d - 1, middleKey d, middleKey d + 1]
      · rw [if_neg (not_not_intro h3)]
        by_cases h4 : energyM d > energy0 d ∧ energy0 d ≥ energyP d
        · exact absurd ⟨h1.1, h1.2, not_lt.1 h2, h3, h4.1, h4.2⟩ h
        · rw [if_pos h4]; exact ⟨_, rfl⟩
      · rw [if_pos h3]; exact ⟨_, rfl⟩
  · rw [if_pos h1]; exact ⟨_, rfl⟩

/-- Claim C4 (amended): for every model, every finite `n_elec >= 0` that is
not the pole of the rational function (`1 + b1*n_elec ≠ 0`; at the pole the
division raises `ZeroDivisionError` instead), and every positive integer
order `n`, `energy_derivative` returns
`(-b1)^(n-1) * (a1 - a0*b1) * n! / (1 + b1*n_elec)^(n+1)`. -/
theorem rational_energy_derivative_formula (m : RationalGlobalTool) (q : ℚ)
    (k : ℕ) (h0 : 0 ≤ q) (hk : 1 ≤ k) (hd : 1 + m.b1 * q ≠ 0) :
    energyDerivative m (.fin q) (.pyInt (k : ℤ)) =
      .ok ⟨!(inRange m (.fin q)),
        (-m.b1) ^ (k - 1) * (m.a1 - m.a0 * m.b1) * (Nat.factorial k : ℚ)
          / (1 + m.b1 * q) ^ (k + 1)⟩ := by
  have hki : (0 : ℤ) < (k : ℤ) := by exact_mod_cast hk
  unfold energyDerivative nNeg
  rw [if_neg (by simp [not_lt.2 h0])]
  dsimp only
  rw [if_neg (not_not_intro (by unfold isPosInt; exact decide_eq_true hki))]
  simp only [orderVal, Int.toNat_natCast]
  rw [if_neg hd]

/-- Claim C5 (amended): for every model and every finite `n_elec >= 0` with
`1 + b1*n_elec ≠ 0`, `energy` completes and returns the rational value, the
out-of-range condition being surfaced only through the non-fatal warning
flag; at the pole `n_elec = -1/b1` (reachable when `b1 < 0`) the division
raises `ZeroDivisionError` instead. -/
theorem rational_energy_completes (m : RationalGlobalTool) (q : ℚ)
    (h0 : 0 ≤ q) (hd : 1 + m.b1 * q ≠ 0) :
    energy m (.fin q) =
      .ok ⟨!(inRange m (.fin q)), (m.a0 + m.a1 * q) / (1 + m.b1 * q)⟩ :=
  energy_fin_eq m q h0 hd

/-- Claim C6 (amended): for every model with `b1 ≠ 0`, `energy` at
`N = +infinity` returns the horizontal asymptote `a1/b1` through the
`isinf` special case (when `b1 = 0` that division raises
`ZeroDivisionError`), and `energy_derivative` at `N = +infinity` returns 0
for every positive integer order. -/
theorem rational_energy_at_infinity (m : RationalGlobalTool) :
    (m.b1 ≠ 0 → energy m .inf = .ok ⟨true, m.a1 / m.b1⟩) ∧
    (∀ k : ℕ, 1 ≤ k →
      energyDerivative m .inf (.pyInt (k : ℤ)) = .ok ⟨true, 0⟩) := by
  constructor
  · intro hb
    unfold energy nNeg
    rw [if_neg (by simp)]
    dsimp only
    rw [if_neg hb]
    rfl
  · intro k hk
    have hki : (0 : ℤ) < (k : ℤ) := by exact_mod_cast hk
    unfold energyDerivative nNeg
    rw [if_neg (by simp)]
    dsimp only
    rw [if_neg (not_not_intro (by unfold isPosInt; exact decide_eq_true hki))]
    rfl

/-- Claim C7: for every model and every `N >= 0` in the domain, the
grand-potential derivative of order 1 equals `-N`. -/
theorem grand_potential_first_derivative (m : RationalGlobalTool) (n : ℚ)
    (h : 0 ≤ n) : grandPotentialDerivative m n 1 = some (-n) := by
  unfold grandPotentialDerivative
  rw [if_neg (not_lt.2 h), if_pos rfl]

/-- Claim C8: `energy` raises a `ValueError` for every `n_elec < 0`, and
`energy_derivative` raises a `ValueError` for every `n_elec < 0` and for
every `order` that is not a positive integer; in all these cases no value is
returned. -/
theorem rational_eval_invalid_args (m : RationalGlobalTool) (q : ℚ)
    (n : NElec) (ord : PyObj) :
    (q < 0 → ∃ s, energy m (.fin q) = .error (.valueError s)) ∧
    (q < 0 → ∃ s, energyDerivative m (.fin q) ord = .error (.valueError s)) ∧
    (isPosInt ord = false →
      ∃ s, energyDerivative m n ord = .error (.valueError s)) := by
  refine ⟨?_, ?_, ?_⟩
  · intro hq
    exact ⟨.negativeNElec, by unfold energy nNeg; rw [if_pos (decide_eq_true hq)]⟩
  · intro hq
    exact ⟨.negativeNElec,
      by unfold energyDerivative nNeg; rw [if_pos (decide_eq_true hq)]⟩
  · intro hord
    by_cases hn : nNeg n = true
    · exact ⟨.negativeNElec, by unfold energyDerivative; rw [if_pos hn]⟩
    · refine ⟨.badOrder, ?_⟩
      unfold energyDerivative
      rw [if_neg hn]
      dsimp only
      rw [if_pos (by rw [hord]; exact Bool.false_ne_true)]

/-- Claim C9: a local reactivity tool constructed with no inputs returns
`None` for every descriptor, and more generally any local descriptor whose
required input (Fukui array or global tool) is absent evaluates to `None`
rather than raising an error. -/
theorem local_absent_inputs_none :
    (∀ t : QuadraticLocalTool,
      ((t.ff_plus = none ∨ t.ff_minus = none) →
        t.ff_zero = none ∧ t.dual_descriptor = none ∧ t.ip_zero = none ∧
          t.eta_zero = none ∧ t.nucleofugality_zero = none) ∧
      (t.ff_plus = none →
        t.ip_plus = none ∧ t.eta_plus = none ∧
          t.nucleofugality_plus = none) ∧
      (t.ff_minus = none →
        t.ip_minus = none ∧ t.eta_minus = none ∧
          t.nucleofugality_minus = none) ∧
      (t.global_instance = none →
        t.ip_plus = none ∧ t.ip_minus = none ∧ t.ip_zero = none ∧
          t.eta_plus = none ∧ t.eta_minus = none ∧ t.eta_zero = none ∧
          t.nucleofugality_plus = none ∧ t.nucleofugality_minus = none ∧
          t.nucleofugality_zero = none)) ∧
    ((⟨none, none, none⟩ : QuadraticLocalTool).ff_plus = none ∧
      (⟨none, none, none⟩ : QuadraticLocalTool).ff_minus = none ∧
      (⟨none, none, none⟩ : QuadraticLocalTool).ff_zero = none ∧
      (⟨none, none, none⟩ : QuadraticLocalTool).dual_descriptor = none ∧
      (⟨none, none, none⟩ : QuadraticLocalTool).ip_plus = none ∧
      (⟨none, none, none⟩ : QuadraticLocalTool).ip_minus = none ∧
      (⟨none, none, none⟩ : QuadraticLocalTool).ip_zero = none ∧
      (⟨none, none, none⟩ : QuadraticLocalTool).eta_plus = none ∧
      (⟨none, none, none⟩ : QuadraticLocalTool).eta_minus = none ∧
      (⟨none, none, none⟩ : QuadraticLocalTool).eta_zero = none ∧
      (⟨none, none, none⟩ : QuadraticLocalTool).nucleofugality_plus = none ∧
      (⟨none, none, none⟩ : QuadraticLocalTool).nucleofugality_minus = none ∧
      (⟨none, none, none⟩ : QuadraticLocalTool).nucleofugality_zero = none) := by
  constructor
  · rintro ⟨p, mi, gi⟩
    refine ⟨?_, ?_, ?_, ?_⟩ <;> intro h <;> cases p <;> cases mi <;> cases gi <;>
      simp_all [QuadraticLocalTool.ff_zero, QuadraticLocalTool.dual_descriptor,
        QuadraticLocalTool.ip_plus, QuadraticLocalTool.ip_minus,
        QuadraticLocalTool.ip_zero, QuadraticLocalTool.eta_plus,
        QuadraticLocalTool.eta_minus, QuadraticLocalTool.eta_zero,
        QuadraticLocalTool.nucleofugality_plus,
        QuadraticLocalTool.nucleofugality_minus,
        QuadraticLocalTool.nucleofugality_zero, scaleOpt]
  · simp [QuadraticLocalTool.ff_zero, QuadraticLocalTool.dual_descriptor,
      QuadraticLocalTool.ip_plus, QuadraticLocalTool.ip_minus,
      QuadraticLocalTool.ip_zero, QuadraticLocalTool.eta_plus,
      QuadraticLocalTool.eta_minus, QuadraticLocalTool.eta_zero,
      QuadraticLocalTool.nucleofugality_plus,
      QuadraticLocalTool.nucleofugality_minus,
      QuadraticLocalTool.nucleofugality_zero, scaleOpt]

/-- Claim C10: `energy_derivative` accepts a Boolean `order`: the check
`isinstance(order, int) and order > 0` classifies `True` as a positive
integer, so passing `True` behaves exactly like passing the integer 1 (the
first derivative) instead of raising. -/
theorem energy_derivative_accepts_bool_order (m : RationalGlobalTool)
    (n : NElec) :
    isPosInt (.pyBool true) = true ∧
    energyDerivative m n (.pyBool true) = energyDerivative m n (.pyInt 1) := by
  refine ⟨rfl, ?_⟩
  unfold energyDerivative
  cases n <;> simp [isPosInt, orderVal]

/-! ## Witnesses and counterexamples -/

/-- Witness for C1 at the concrete valid triple `dEx`. -/
theorem rational_fit_roundtrip_witness :
    validInput dEx ∧ b1den dEx ≠ 0 ∧
    (∃ m, initRationalGlobalTool dEx = .ok m ∧
      energy m (.fin (middleKey dEx - 1)) = .ok ⟨false, energyM dEx⟩ ∧
      energy m (.fin (middleKey dEx)) = .ok ⟨false, energy0 dEx⟩ ∧
      energy m (.fin (middleKey dEx + 1)) = .ok ⟨false, energyP dEx⟩) :=
  ⟨by with_unfolding_all decide, by with_unfolding_all decide,
    rational_fit_roundtrip dEx (by with_unfolding_all decide) (by with_unfolding_all decide) (by with_unfolding_all decide)⟩

/-- Counterexample to C1 as stated: `dZero` passes validation yet the
constructor raises `ZeroDivisionError`, and `dPoleM` passes validation and
constructs, yet `energy` at `n0 - 1 = 1` raises `ZeroDivisionError` instead
of reproducing the input energy 5. -/
theorem rational_fit_roundtrip_cex :
    validInput dZero ∧
    initRationalGlobalTool dZero = .error .zeroDivisionError ∧
    validInput dPoleM ∧
    initRationalGlobalTool dPoleM = .ok mPoleM ∧
    energy mPoleM (.fin 1) = .error .zeroDivisionError := by with_unfolding_all decide

/-- Witness for C2 at the concrete triple `dEx` and its fitted model. -/
theorem rational_params_closed_form_witness :
    initRationalGlobalTool dEx = .ok mEx ∧
    (mEx.b1 = -(energyP dEx - 2 * energy0 dEx + energyM dEx) /
        ((middleKey dEx + 1) * energyP dEx - 2 * middleKey dEx * energy0 dEx
          + (middleKey dEx - 1) * energyM dEx) ∧
      mEx.a1 = (1 + mEx.b1 * middleKey dEx) * (energyP dEx - energy0 dEx)
          + mEx.b1 * energyP dEx ∧
      mEx.a0 = -(mEx.a1) * middleKey dEx
          + energy0 dEx * (1 + mEx.b1 * middleKey dEx) ∧
      mEx.params = [mEx.a0, mEx.a1, mEx.b1]) :=
  ⟨by with_unfolding_all decide, rational_params_closed_form dEx mEx (by with_unfolding_all decide)⟩

/-- Witness for C3 at the empty input. -/
theorem rational_invalid_input_valueError_witness :
    ¬ validInput ([] : List (ℚ × ℚ)) ∧
    ∃ msg, initRationalGlobalTool ([] : List (ℚ × ℚ)) =
      .error (.valueError msg) :=
  ⟨by with_unfolding_all decide, rational_invalid_input_valueError [] (by with_unfolding_all decide)⟩

/-- Witness for C4 at the model `mEx`, `n_elec = 2`, order 1. -/
theorem rational_energy_derivative_formula_witness :
    (0 : ℚ) ≤ 2 ∧ (1 : ℕ) ≤ 1 ∧ 1 + mEx.b1 * 2 ≠ 0 ∧
    energyDerivative mEx (.fin 2) (.pyInt ((1 : ℕ) : ℤ)) =
      .ok ⟨!(inRange mEx (.fin 2)),
        (-mEx.b1) ^ (1 - 1) * (mEx.a1 - mEx.a0 * mEx.b1)
          * (Nat.factorial 1 : ℚ) / (1 + mEx.b1 * 2) ^ (1 + 1)⟩ :=
  ⟨by norm_num, le_rfl, by with_unfolding_all decide,
    rational_energy_derivative_formula mEx 2 1 (by norm_num) le_rfl (by with_unfolding_all decide)⟩

/-- Counterexample to C4 as stated: the fitted model `mPole` has a pole at
the nonnegative electron count 4, where `energy_derivative` raises
`ZeroDivisionError` instead of returning the closed-form value. -/
theorem rational_energy_derivative_formula_cex :
    initRationalGlobalTool dPole = .ok mPole ∧ (0 : ℚ) ≤ 4 ∧
    energyDerivative mPole (.fin 4) (.pyInt 1) =
      .error .zeroDivisionError := by with_unfolding_all decide

/-- Witness for C5 at the model `mEx` and the out-of-range count 5. -/
theorem rational_energy_completes_witness :
    (0 : ℚ) ≤ 5 ∧ 1 + mEx.b1 * 5 ≠ 0 ∧
    energy mEx (.fin 5) =
      .ok ⟨!(inRange mEx (.fin 5)), (mEx.a0 + mEx.a1 * 5) / (1 + mEx.b1 * 5)⟩ :=
  ⟨by norm_num, by with_unfolding_all decide,
    rational_energy_completes mEx 5 (by norm_num) (by with_unfolding_all decide)⟩

/-- Counterexample to C5 as stated: at the pole `N = 4` of the fitted model
`mPole`, `energy` raises `ZeroDivisionError` rather than returning a
value. -/
theorem rational_energy_completes_cex :
    initRationalGlobalTool dPole = .ok mPole ∧ (0 : ℚ) ≤ 4 ∧
    energy mPole (.fin 4) = .error .zeroDivisionError := by with_unfolding_all decide

/-- Witness for C6 at the model `mEx`. -/
theorem rational_energy_at_infinity_witness :
    mEx.b1 ≠ 0 ∧ energy mEx .inf = .ok ⟨true, mEx.a1 / mEx.b1⟩ ∧
    energyDerivative mEx .inf (.pyInt ((2 : ℕ) : ℤ)) = .ok ⟨true, 0⟩ :=
  ⟨by with_unfolding_all decide, (rational_energy_at_infinity mEx).1 (by with_unfolding_all decide),
    (rational_energy_at_infinity mEx).2 2 (by norm_num)⟩

/-- Counterexample to C6 as stated: the fitted model `mLin` has `b1 = 0`,
and `energy` at `N = +infinity` raises `ZeroDivisionError` instead of
returning an asymptote. -/
theorem rational_energy_at_infinity_cex :
    initRationalGlobalTool dLin = .ok mLin ∧
    energy mLin .inf = .error .zeroDivisionError := by with_unfolding_all decide

/-- Witness for C7 at the model `mEx` and `N = 3`. -/
theorem grand_potential_first_derivative_witness :
    (0 : ℚ) ≤ 3 ∧ grandPotentialDerivative mEx 3 1 = some (-3) :=
  ⟨by norm_num, grand_potential_first_derivative mEx 3 (by norm_num)⟩

/-- Witness for C8 at the model `mEx`, a negative count and a float order. -/
theorem rational_eval_invalid_args_witness :
    ((-1 : ℚ) < 0 ∧ isPosInt (.pyFloat (1/2)) = false) ∧
    (∃ s, energy mEx (.fin (-1)) = .error (.valueError s)) ∧
    (∃ s, energyDerivative mEx (.fin (-1)) (.pyFloat (1/2)) =
      .error (.valueError s)) ∧
    (∃ s, energyDerivative mEx (.fin 5) (.pyFloat (1/2)) =
      .error (.valueError s)) :=
  ⟨⟨by norm_num, rfl⟩,
    (rational_eval_invalid_args mEx (-1) (.fin 5) (.pyFloat (1/2))).1
      (by norm_num),
    (rational_eval_invalid_args mEx (-1) (.fin 5) (.pyFloat (1/2))).2.1
      (by norm_num),
    (rational_eval_invalid_args mEx (-1) (.fin 5) (.pyFloat (1/2))).2.2 rfl⟩

/-- Witness for C9: a tool missing `ff_plus` yields `None` for the
descriptors that need it, and the empty-constructed tool yields `None`. -/
theorem local_absent_inputs_none_witness :
    ((⟨none, some [1, 2], some ⟨0, -1, 13⟩⟩ : QuadraticLocalTool).ff_zero
        = none ∧
      (⟨none, some [1, 2], some ⟨0, -1, 13⟩⟩ : QuadraticLocalTool).ip_plus
        = none) ∧
    (⟨none, none, none⟩ : QuadraticLocalTool).dual_descriptor = none :=
  ⟨⟨((local_absent_inputs_none.1 ⟨none, some [1, 2], some ⟨0, -1, 13⟩⟩).1
        (Or.inl rfl)).1,
    ((local_absent_inputs_none.1 ⟨none, some [1, 2], some ⟨0, -1, 13⟩⟩).2.1
        rfl).1⟩,
    local_absent_inputs_none.2.2.2.2.1⟩

end ChemTools
